import Mathlib

/-!
Shallow embedding of the kibana-prometheus-exporter repository
(packages `config`, `exporter` and the `main` HTTP handler), together
with theorems settling the frozen claims C1..C10 about it.

Conventions of the embedding:
* Go strings are Lean `String`s; `strings.ToLower` is embedded as
  `goToLower` (ASCII case mapping, which agrees with Go on every
  comparison against the ASCII literals used by this program).
* Go `float64` metric values are embedded as `Rat` (no claim involves
  floating-point rounding).
* Fallible Go functions returning `(T, error)` become `Except String T`.
* A Go runtime panic (nil-pointer dereference, index out of range) is
  the `GoResult.panic` outcome; normal termination is `GoResult.ok`.
* The network and the JSON decoder are the environment of one scrape;
  they enter as an `HttpResult` input describing what `client.Do` and
  `json.Unmarshal` produce for this cycle.
-/

/-- Embedding of Go `strings.ToLower` (ASCII case mapping). -/
def goToLower (s : String) : String :=
  String.mk (s.data.map Char.toLower)

/-- Embedding of Go `strconv.ParseBool`: accepts exactly
`1,t,T,TRUE,true,True` (true) and `0,f,F,FALSE,false,False` (false). -/
def strconvParseBool (str : String) : Except String Bool :=
  if str = "1" ∨ str = "t" ∨ str = "T" ∨ str = "TRUE" ∨ str = "true" ∨ str = "True" then
    Except.ok true
  else if str = "0" ∨ str = "f" ∨ str = "F" ∨ str = "FALSE" ∨ str = "false" ∨ str = "False" then
    Except.ok false
  else
    Except.error ("parsing " ++ str ++ ": invalid syntax")

/-- `config.parseBool`: lowercase, map yes/no to 1/0, then `strconv.ParseBool`. -/
def parseBool (val : String) : Except String Bool :=
  let val := goToLower val
  let val := if val = "no" then "0" else if val = "yes" then "1" else val
  strconvParseBool val

/-- `config.KibanaConfig`: one target profile.  Exported yaml fields are
the raw strings; `uri`, `skip`, `wait` are the derived private fields. -/
structure KibanaConfig where
  Name : String
  Protocol : String
  Host : String
  Port : String
  Username : String
  Password : String
  Skip : String
  Wait : String
  uri : String
  skip : Bool
  wait : Bool
deriving DecidableEq

/-- `(*KibanaConfig).url()`: the derived base URL `protocol://host:port`. -/
def url (c : KibanaConfig) : String :=
  c.Protocol ++ "://" ++ c.Host ++ ":" ++ c.Port

/-- `(*KibanaConfig).check()`: validate and fill defaults. -/
def check (c : KibanaConfig) : Except String KibanaConfig :=
  if c.Name = "" then Except.error "config must have the field name set" else
  let c := if c.Protocol = "" then { c with Protocol := "http" } else c
  let c := if c.Host = "" then { c with Host := "localhost" } else c
  let c := if c.Port = "" then { c with Port := "5601" } else c
  match (if c.Skip = "" then Except.ok false else parseBool c.Skip) with
  | Except.error e => Except.error e
  | Except.ok sk =>
    match (if c.Wait = "" then Except.ok false else parseBool c.Wait) with
    | Except.error e => Except.error e
    | Except.ok w =>
      let c := { c with skip := sk, wait := w }
      Except.ok { c with uri := url c }

/-- Does the second list start with the first one? -/
def leadsWith : List Char → List Char → Bool
  | [], _ => true
  | _ :: _, [] => false
  | a :: as, b :: bs => a = b && leadsWith as bs

/-- Longest leading run of non-colon characters (the `[^:]+` group). -/
def takeNonColon : List Char → List Char
  | [] => []
  | c :: cs => if c = ':' then [] else c :: takeNonColon cs

/-- Longest leading run of digits (the `\d+` group). -/
def takeDigits : List Char → List Char
  | [] => []
  | c :: cs => if c.isDigit then c :: takeDigits cs else []

/-- Host-and-port part of the pattern: `([^:]+)(?::(\d+))` — a
non-empty colon-free host followed by a mandatory colon and at least
one digit (trailing characters are allowed: the pattern is not
end-anchored). -/
def matchHostPort (proto : String) (rest : List Char) : Option (String × String × String) :=
  let host := takeNonColon rest
  if host.isEmpty then none
  else
    match rest.drop host.length with
    | ':' :: tail =>
      let digits := takeDigits tail
      if digits.isEmpty then none
      else some (proto, String.mk host, String.mk digits)
    | _ => none

/-- The fixed regular expression of `SetDefault`,
`^(https?)://([^:]+)(?::(\d+))`, as a parser returning
(scheme, host, port) when the pattern matches. -/
def matchUrlLine (s : String) : Option (String × String × String) :=
  if leadsWith "https://".data s.data then matchHostPort "https" (s.data.drop 8)
  else if leadsWith "http://".data s.data then matchHostPort "http" (s.data.drop 7)
  else none

/-- `(*KibanaConfig).SetDefault(url, skipTls, wait)`: override
scheme/host/port when the fixed pattern matches, and always store the
raw url and the two flags. -/
def SetDefault (c : KibanaConfig) (u : String) (skipTls : Bool) (w : Bool) : KibanaConfig :=
  let c :=
    match matchUrlLine u with
    | some (proto, host, port) => { c with Protocol := proto, Host := host, Port := port }
    | none => c
  { c with uri := u, skip := skipTls, wait := w }

/-- `(*KibanaConfig).Url()`. -/
def Url (c : KibanaConfig) : String := c.uri

/-- `(*KibanaConfig).SkipTls()`. -/
def SkipTls (c : KibanaConfig) : Bool := c.skip

/-- `(*KibanaConfig).WaitKibana()`. -/
def WaitKibana (c : KibanaConfig) : Bool := c.wait

/-- Bytes of the UTF-8 encoding of one character (what Go's `[]byte`
conversion of a string produces per rune). -/
def utf8Bytes (c : Char) : List Nat :=
  let n := c.toNat
  if n < 128 then [n]
  else if n < 2048 then [192 + n / 64, 128 + n % 64]
  else if n < 65536 then [224 + n / 4096, 128 + n / 64 % 64, 128 + n % 64]
  else [240 + n / 262144, 128 + n / 4096 % 64, 128 + n / 64 % 64, 128 + n % 64]

/-- UTF-8 bytes of a whole string. -/
def strBytes (s : String) : List Nat :=
  (s.data.map utf8Bytes).flatten

/-- The standard base64 alphabet. -/
def base64Alphabet : List Char :=
  "ABCDEFGHIJKLMNOPQRSTUVWXYZabcdefghijklmnopqrstuvwxyz0123456789+/".data

/-- Character of one 6-bit group. -/
def b64Char (n : Nat) : Char :=
  base64Alphabet.getD n 'A'

/-- Embedding of Go `base64.StdEncoding.EncodeToString` (standard
alphabet, `=` padding). -/
def base64Encode : List Nat → String
  | [] => ""
  | [b0] =>
    String.mk [b64Char (b0 / 4), b64Char (b0 % 4 * 16), '=', '=']
  | [b0, b1] =>
    String.mk [b64Char (b0 / 4), b64Char (b0 % 4 * 16 + b1 / 16), b64Char (b1 % 16 * 4), '=']
  | b0 :: b1 :: b2 :: rest =>
    String.mk [b64Char (b0 / 4), b64Char (b0 % 4 * 16 + b1 / 16),
               b64Char (b1 % 16 * 4 + b2 / 64), b64Char (b2 % 64)] ++ base64Encode rest

/-- `exporter.KibanaCollector`: per-target collector state.  The
`client` is summarized by its one configuration bit
(`insecureSkipVerify`); the transport itself is the cycle's input. -/
structure KibanaCollector where
  State : Bool
  kibana : KibanaConfig
  authHeader : String
  insecureSkipVerify : Bool
deriving DecidableEq

/-- `exporter.KibanaMetrics`: the decoded `api/status` payload
(the subset of fields the program consumes). -/
structure KibanaMetrics where
  version : String
  build : Int
  state : String
  concurrentConnections : Int
  uptimeInMillis : Rat
  heapTotal : Int
  heapUsed : Int
  load1m : Rat
  load5m : Rat
  load15m : Rat
  respTimeAvg : Rat
  respTimeMax : Rat
  reqDisconnects : Int
  reqTotal : Int
deriving DecidableEq

/-- `exporter.NewCollector`: build a collector from a profile.  The Go
function returns `(collector, nil)` unconditionally. -/
def NewCollector (kibana : KibanaConfig) : KibanaCollector :=
  { State := false
    kibana := kibana
    insecureSkipVerify :=
      if kibana.Protocol.startsWith "https" then SkipTls kibana else false
    authHeader :=
      if kibana.Username ≠ "" ∧ kibana.Password ≠ "" then
        "Basic " ++ base64Encode (strBytes (kibana.Username ++ ":" ++ kibana.Password))
      else "" }

/-- What the environment (request construction, transport and JSON
decoder) does for one scrape:
* `noRequest`: `http.NewRequest` fails;
* `noResponse`: `client.Do` fails;
* `response code status body`: an HTTP response with the given code and
  status line, whose read-and-decode step yields `body`. -/
inductive HttpResult where
  | noRequest (err : String)
  | noResponse (err : String)
  | response (code : Nat) (status : String) (body : Except String KibanaMetrics)

/-- `(*KibanaCollector).scrape()`: returns the updated collector
(its `State` flag is the only mutation) and the Go `( *KibanaMetrics, error)`
pair as an `Except`. -/
def scrape (c : KibanaCollector) (r : HttpResult) : KibanaCollector × Except String KibanaMetrics :=
  match r with
  | HttpResult.noRequest err =>
    (c, Except.error ("could not initialize a request to scrape metrics: " ++ err))
  | HttpResult.noResponse err =>
    ({ c with State := false }, Except.error ("error while reading Kibana status: " ++ err))
  | HttpResult.response code status body =>
    let c := { c with State := true }
    if code ≠ 200 then
      ({ c with State := false }, Except.error ("invalid response from Kibana status: " ++ status))
    else
      match body with
      | Except.error e =>
        (c, Except.error ("error while unmarshalling Kibana status: " ++ e))
      | Except.ok m => (c, Except.ok m)

/-- The values held by the exporter's gauges.  The `info` GaugeVec is an
association list from label values `[version, build]` to the child's
value; plain gauges are single `Rat` values.  Gauge names carry the
registry namespace as a prefix in Go; the base names are used here. -/
structure GaugeState where
  status : Rat
  info : List (List String × Rat)
  concurrentConnections : Rat
  uptime : Rat
  heapTotal : Rat
  heapUsed : Rat
  load1m : Rat
  load5m : Rat
  load15m : Rat
  respTimeAvg : Rat
  respTimeMax : Rat
  reqDisconnects : Rat
  reqTotal : Rat
deriving DecidableEq

/-- All gauges start at value 0 with no `info` children, as
`prometheus.NewGauge`/`NewGaugeVec` create them. -/
def initGauges : GaugeState :=
  { status := 0, info := [], concurrentConnections := 0, uptime := 0
    heapTotal := 0, heapUsed := 0, load1m := 0, load5m := 0, load15m := 0
    respTimeAvg := 0, respTimeMax := 0, reqDisconnects := 0, reqTotal := 0 }

/-- `GaugeVec.WithLabelValues(labels...).Set(v)`: update the child with
these label values, creating it at the end when absent. -/
def setLabelValue (xs : List (List String × Rat)) (labels : List String) (v : Rat) :
    List (List String × Rat) :=
  if xs.any (fun p => p.1 = labels) then
    xs.map (fun p => if p.1 = labels then (p.1, v) else p)
  else xs ++ [(labels, v)]

/-- One metric sample written to the collection channel. -/
structure Sample where
  name : String
  labelValues : List String
  value : Rat
deriving DecidableEq

/-- Outcome of running a piece of Go code: normal result or panic. -/
inductive GoResult (α : Type) where
  | ok (a : α)
  | panic (msg : String)
deriving DecidableEq

/-- The Go runtime's nil-pointer panic message. -/
def nilPointerMsg : String :=
  "runtime error: invalid memory address or nil pointer dereference"

/-- `exporter.Exporter`: the coordinator.  `target` is the Go pointer
(`Option`: `none` is nil); `KibanaByName` is the name index. -/
structure Exporter where
  ns : String
  Collectors : List KibanaCollector
  target : Option KibanaCollector
  debug : Bool
  KibanaByName : List (String × KibanaCollector)
  gauges : GaugeState
deriving DecidableEq

/-- Map insertion used for `KibanaByName[name] = coll`. -/
def mapInsert (m : List (String × KibanaCollector)) (k : String) (v : KibanaCollector) :
    List (String × KibanaCollector) :=
  if m.any (fun p => p.1 = k) then
    m.map (fun p => if p.1 = k then (k, v) else p)
  else m ++ [(k, v)]

/-- `exporter.NewExporter`: creates the gauges and builds the
name-indexed map.  The Go function ends with `return exporter, nil`;
no validation of the namespace ever produces an error. -/
def NewExporter (ns : String) (collectors : List KibanaCollector) (debug : Bool) :
    Except String Exporter :=
  let e : Exporter :=
    { ns := ns, Collectors := collectors, target := none, debug := debug
      KibanaByName := [], gauges := initGauges }
  let e := { e with
    KibanaByName := collectors.foldl (fun m coll => mapInsert m coll.kibana.Name coll) [] }
  Except.ok e

/-- `(*Exporter).SetTarget`. -/
def SetTarget (e : Exporter) (t : KibanaCollector) : Exporter :=
  { e with target := some t }

/-- `(*Exporter).FindTarget`: map lookup, `none` when absent. -/
def FindTarget (e : Exporter) (t : String) : Option KibanaCollector :=
  (e.KibanaByName.find? (fun p => p.1 = t)).map Prod.snd

/-- `(*Exporter).parseMetrics`: set the gauges from a decoded payload.
The Go argument is a pointer; dereferencing `nil` panics. -/
def parseMetrics (g : GaugeState) (m? : Option KibanaMetrics) : GoResult GaugeState :=
  match m? with
  | none => GoResult.panic nilPointerMsg
  | some m =>
    let statusVal : Rat := if goToLower m.state = "green" then 1 else 0
    let g := { g with status := statusVal }
    if statusVal = 1 then
      GoResult.ok { g with
        info := setLabelValue g.info [m.version, toString m.build] 1
        concurrentConnections := (m.concurrentConnections : Rat)
        uptime := m.uptimeInMillis
        heapTotal := (m.heapTotal : Rat)
        heapUsed := (m.heapUsed : Rat)
        load1m := m.load1m
        load5m := m.load5m
        load15m := m.load15m
        respTimeAvg := m.respTimeAvg
        respTimeMax := m.respTimeMax
        reqDisconnects := (m.reqDisconnects : Rat)
        reqTotal := (m.reqTotal : Rat) }
    else GoResult.ok g

/-- `(*Exporter).send`: write the status gauge, then, when the bound
target's `State` flag is true, the `info` children and the remaining
gauges in their fixed order. -/
def send (e : Exporter) : GoResult (List Sample) :=
  match e.target with
  | none => GoResult.panic nilPointerMsg
  | some t =>
    GoResult.ok
      (Sample.mk "status" [] e.gauges.status ::
        (if t.State then
          e.gauges.info.map (fun p => Sample.mk "info" p.1 p.2) ++
            [Sample.mk "concurrent_connections" [] e.gauges.concurrentConnections,
             Sample.mk "millis_uptime" [] e.gauges.uptime,
             Sample.mk "heap_max_in_bytes" [] e.gauges.heapTotal,
             Sample.mk "heap_used_in_bytes" [] e.gauges.heapUsed,
             Sample.mk "os_load_1m" [] e.gauges.load1m,
             Sample.mk "os_load_5m" [] e.gauges.load5m,
             Sample.mk "os_load_15m" [] e.gauges.load15m,
             Sample.mk "response_average" [] e.gauges.respTimeAvg,
             Sample.mk "response_max" [] e.gauges.respTimeMax,
             Sample.mk "requests_disconnects" [] e.gauges.reqDisconnects,
             Sample.mk "requests_total" [] e.gauges.reqTotal]
        else []))

/-- `(*Exporter).Collect`: one collection cycle against the transport
outcome `r`.  On normal termination it returns the updated exporter and
the list of samples written to the channel.  In Go the bound target is
shared by pointer with `Collectors`; the model threads the updated
collector through `target` only, which is the only alias any claim
reads after a cycle. -/
def Collect (e : Exporter) (r : HttpResult) : GoResult (Exporter × List Sample) :=
  match e.target with
  | none => GoResult.ok (e, [])
  | some t0 =>
    let p := scrape t0 r
    let t := p.1
    let metrics : Option KibanaMetrics :=
      match p.2 with
      | Except.ok m => some m
      | Except.error _ => none
    let e := { e with target := some t }
    if t.State then
      match parseMetrics e.gauges metrics with
      | GoResult.panic msg => GoResult.panic msg
      | GoResult.ok g =>
        match send { e with gauges := g } with
        | GoResult.panic msg => GoResult.panic msg
        | GoResult.ok samples => GoResult.ok ({ e with gauges := g }, samples)
    else
      let e := { e with gauges := { e.gauges with status := 0 } }
      match send e with
      | GoResult.panic msg => GoResult.panic msg
      | GoResult.ok samples => GoResult.ok (e, samples)

/-- `main.handler`: bind the scrape target from the `target` query
parameter.  Both branches of the `if` bind `Collectors[0]`; indexing an
empty slice panics in Go. -/
def handler (e : Exporter) (target : String) : GoResult Exporter :=
  if target = "" then
    match e.Collectors with
    | [] => GoResult.panic "index out of range"
    | c :: _ => GoResult.ok (SetTarget e c)
  else
    match e.Collectors with
    | [] => GoResult.panic "index out of range"
    | c :: _ => GoResult.ok (SetTarget e c)

/-- The samples a non-panicking cycle emits. -/
def cycleSamples (e : Exporter) (r : HttpResult) : Option (List Sample) :=
  match Collect e r with
  | GoResult.ok p => some p.2
  | GoResult.panic _ => none

/-- The default-filling step of `check` in isolation (the three `if`
statements filling Protocol/Host/Port); `check_eq` below proves that
`check` is literally this step composed with the name test, the two
boolean parses and the URL derivation. -/
def defaulted (c : KibanaConfig) : KibanaConfig :=
  let c := if c.Protocol = "" then { c with Protocol := "http" } else c
  let c := if c.Host = "" then { c with Host := "localhost" } else c
  if c.Port = "" then { c with Port := "5601" } else c

/-- The status gauge's value after `parseMetrics`, `none` on panic. -/
def statusAfterParse (g : GaugeState) (m? : Option KibanaMetrics) : Option Rat :=
  match parseMetrics g m? with
  | GoResult.ok g2 => some g2.status
  | GoResult.panic _ => none

/-- A fully-validated default profile: what `check` produces from a
profile holding only the name `default`. -/
def cfgD : KibanaConfig :=
  { Name := "default", Protocol := "http", Host := "localhost", Port := "5601"
    Username := "", Password := "", Skip := "", Wait := ""
    uri := "http://localhost:5601", skip := false, wait := false }

/-- A second validated profile with a distinct name and host. -/
def cfgB : KibanaConfig :=
  { cfgD with Name := "other", Host := "otherhost", uri := "http://otherhost:5601" }

/-- Collector over `cfgD`. -/
def colD : KibanaCollector := NewCollector cfgD

/-- Collector over `cfgB`. -/
def colB : KibanaCollector := NewCollector cfgB

/-- The exporter `NewExporter "kibana" [colD, colB] false` builds
(see `NewExporter_exD` below). -/
def exD : Exporter :=
  { ns := "kibana", Collectors := [colD, colB], target := none, debug := false
    KibanaByName := [("default", colD), ("other", colB)], gauges := initGauges }

/-- `exD` with the first collector bound as current target. -/
def exDT : Exporter := SetTarget exD colD

/-- A healthy decoded payload (the spec's end-to-end example). -/
def mBase : KibanaMetrics :=
  { version := "7.17.1", build := 46635, state := "green", concurrentConnections := 3
    uptimeInMillis := 12345, heapTotal := 524288000, heapUsed := 296747418
    load1m := 1, load5m := 2, load15m := 3, respTimeAvg := 4, respTimeMax := 9
    reqDisconnects := 1, reqTotal := 100 }

/-- An unvalidated profile whose `skip-tls` value is `t`. -/
def cfgSkipT : KibanaConfig :=
  { Name := "kibana", Protocol := "", Host := "", Port := "", Username := "", Password := ""
    Skip := "t", Wait := "", uri := "", skip := false, wait := false }

/-- An unvalidated profile with a mixed-case `skip-tls` value. -/
def cfgRaw : KibanaConfig :=
  { Name := "kibana", Protocol := "", Host := "", Port := "", Username := "", Password := ""
    Skip := "Yes", Wait := "", uri := "", skip := false, wait := false }

/-- The result of `check cfgRaw` (see the C7 witness). -/
def cfgRawChecked : KibanaConfig :=
  { Name := "kibana", Protocol := "http", Host := "localhost", Port := "5601"
    Username := "", Password := "", Skip := "Yes", Wait := ""
    uri := "http://localhost:5601", skip := true, wait := false }

/-- A profile with a non-http scheme, used to observe that `SetDefault`
leaves scheme/host/port alone when its pattern does not match. -/
def cfgFtp : KibanaConfig :=
  { cfgD with Protocol := "ftp", Host := "h", Port := "1", uri := "ftp://h:1" }

theorem char_toNat_ofNat {n : Nat} (h : n < 55296) : (Char.ofNat n).toNat = n := by
  have hv : n.isValidChar := Or.inl h
  simp only [Char.ofNat, dif_pos hv]
  rfl

theorem char_toLower_not_upper (c : Char) :
    ¬ (65 ≤ (Char.toLower c).toNat ∧ (Char.toLower c).toNat ≤ 90) := by
  by_cases h : c.toNat ≥ 65 ∧ c.toNat ≤ 90
  · simp only [Char.toLower, if_pos h]
    rw [char_toNat_ofNat (by omega)]
    omega
  · simp only [Char.toLower, if_neg h]
    intro hc
    exact h ⟨hc.1, hc.2⟩

theorem goToLower_data (s : String) : (goToLower s).data = s.data.map Char.toLower := rfl

theorem goToLower_ne_of_upper (s t : String) (c : Char) (hct : c ∈ t.data)
    (hc : 65 ≤ c.toNat ∧ c.toNat ≤ 90) : goToLower s ≠ t := by
  intro h
  have hm : c ∈ (goToLower s).data := by rw [h]; exact hct
  rw [goToLower_data] at hm
  obtain ⟨d, _, hd⟩ := List.mem_map.mp hm
  exact char_toLower_not_upper d (by rw [hd]; exact hc)

theorem check_eq (c : KibanaConfig) :
    check c =
      (if c.Name = "" then Except.error "config must have the field name set" else
        match (if (defaulted c).Skip = "" then Except.ok false else parseBool (defaulted c).Skip) with
        | Except.error e => Except.error e
        | Except.ok sk =>
          match (if (defaulted c).Wait = "" then Except.ok false else parseBool (defaulted c).Wait) with
          | Except.error e => Except.error e
          | Except.ok w =>
            Except.ok
              { (defaulted c) with
                skip := sk
                wait := w
                uri := url { (defaulted c) with skip := sk, wait := w } }) := rfl

theorem defaulted_Skip (c : KibanaConfig) : (defaulted c).Skip = c.Skip := by
  simp only [defaulted]
  split_ifs <;> rfl

theorem defaulted_Wait (c : KibanaConfig) : (defaulted c).Wait = c.Wait := by
  simp only [defaulted]
  split_ifs <;> rfl

theorem defaulted_Name (c : KibanaConfig) : (defaulted c).Name = c.Name := by
  simp only [defaulted]
  split_ifs <;> rfl

theorem defaulted_Protocol_ne (c : KibanaConfig) : (defaulted c).Protocol ≠ "" := by
  simp only [defaulted]
  split_ifs <;> simp_all

theorem defaulted_Host_ne (c : KibanaConfig) : (defaulted c).Host ≠ "" := by
  simp only [defaulted]
  split_ifs <;> simp_all

theorem defaulted_Port_ne (c : KibanaConfig) : (defaulted c).Port ≠ "" := by
  simp only [defaulted]
  split_ifs <;> simp_all

theorem defaulted_of_filled (c : KibanaConfig) (hp : c.Protocol ≠ "") (hh : c.Host ≠ "")
    (hpt : c.Port ≠ "") : defaulted c = c := by
  simp only [defaulted]
  split_ifs <;> simp_all

theorem check_ok_shape (c c' : KibanaConfig) (h : check c = Except.ok c') :
    c'.Name ≠ "" ∧ c'.Protocol ≠ "" ∧ c'.Host ≠ "" ∧ c'.Port ≠ "" ∧
    (if c'.Skip = "" then Except.ok false else parseBool c'.Skip) = Except.ok c'.skip ∧
    (if c'.Wait = "" then Except.ok false else parseBool c'.Wait) = Except.ok c'.wait ∧
    c'.uri = url c' := by
  rw [check_eq] at h
  by_cases hn : c.Name = ""
  · rw [if_pos hn] at h
    exact absurd h (by simp)
  rw [if_neg hn] at h
  cases hsk : (if (defaulted c).Skip = "" then Except.ok false else parseBool (defaulted c).Skip) with
  | error e => rw [hsk] at h; exact absurd h (by simp)
  | ok sk =>
    rw [hsk] at h
    cases hw : (if (defaulted c).Wait = "" then Except.ok false else parseBool (defaulted c).Wait) with
    | error e => rw [hw] at h; exact absurd h (by simp)
    | ok w =>
      rw [hw] at h
      simp only [Except.ok.injEq] at h
      subst h
      refine ⟨?_, ?_, ?_, ?_, ?_, ?_, ?_⟩
      · show (defaulted c).Name ≠ ""
        rw [defaulted_Name]; exact hn
      · exact defaulted_Protocol_ne c
      · exact defaulted_Host_ne c
      · exact defaulted_Port_ne c
      · show (if (defaulted c).Skip = "" then Except.ok false else parseBool (defaulted c).Skip) =
          Except.ok sk
        exact hsk
      · exact hw
      · rfl

theorem parseBool_true_iff (s : String) :
    parseBool s = Except.ok true ↔
      (goToLower s = "yes" ∨ goToLower s = "true" ∨ goToLower s = "t" ∨ goToLower s = "1") := by
  have hT : goToLower s ≠ "T" := goToLower_ne_of_upper s "T" 'T' (by decide) (by decide)
  have hTR : goToLower s ≠ "TRUE" := goToLower_ne_of_upper s "TRUE" 'T' (by decide) (by decide)
  have hTr : goToLower s ≠ "True" := goToLower_ne_of_upper s "True" 'T' (by decide) (by decide)
  simp only [parseBool]
  generalize hv : goToLower s = v at hT hTR hTr
  by_cases hno : v = "no"
  · subst hno
    simp [strconvParseBool]
  by_cases hyes : v = "yes"
  · subst hyes
    simp [strconvParseBool]
  rw [if_neg hno, if_neg hyes]
  unfold strconvParseBool
  by_cases h1 : v = "1" ∨ v = "t" ∨ v = "T" ∨ v = "TRUE" ∨ v = "true" ∨ v = "True"
  · rw [if_pos h1]
    rcases h1 with h | h | h | h | h | h <;> simp_all
  · rw [if_neg h1]
    by_cases h0 : v = "0" ∨ v = "f" ∨ v = "F" ∨ v = "FALSE" ∨ v = "false" ∨ v = "False"
    · rw [if_pos h0]
      rcases h0 with h | h | h | h | h | h <;> simp_all
    · rw [if_neg h0]
      push_neg at h1 h0
      simp_all

theorem parseBool_false_iff (s : String) :
    parseBool s = Except.ok false ↔
      (goToLower s = "no" ∨ goToLower s = "false" ∨ goToLower s = "f" ∨ goToLower s = "0") := by
  have hF : goToLower s ≠ "F" := goToLower_ne_of_upper s "F" 'F' (by decide) (by decide)
  have hFA : goToLower s ≠ "FALSE" := goToLower_ne_of_upper s "FALSE" 'F' (by decide) (by decide)
  have hFa : goToLower s ≠ "False" := goToLower_ne_of_upper s "False" 'F' (by decide) (by decide)
  simp only [parseBool]
  generalize hv : goToLower s = v at hF hFA hFa
  by_cases hno : v = "no"
  · subst hno
    simp [strconvParseBool]
  by_cases hyes : v = "yes"
  · subst hyes
    simp [strconvParseBool]
  rw [if_neg hno, if_neg hyes]
  unfold strconvParseBool
  by_cases h1 : v = "1" ∨ v = "t" ∨ v = "T" ∨ v = "TRUE" ∨ v = "true" ∨ v = "True"
  · rw [if_pos h1]
    rcases h1 with h | h | h | h | h | h <;> simp_all
  · rw [if_neg h1]
    by_cases h0 : v = "0" ∨ v = "f" ∨ v = "F" ∨ v = "FALSE" ∨ v = "false" ∨ v = "False"
    · rw [if_pos h0]
      rcases h0 with h | h | h | h | h | h <;> simp_all
    · rw [if_neg h0]
      push_neg at h1 h0
      simp_all

theorem parseBool_error_iff (s : String) :
    (∃ err, parseBool s = Except.error err) ↔
      ¬(goToLower s = "yes" ∨ goToLower s = "no" ∨ goToLower s = "true" ∨
        goToLower s = "false" ∨ goToLower s = "t" ∨ goToLower s = "f" ∨
        goToLower s = "1" ∨ goToLower s = "0") := by
  constructor
  · rintro ⟨err, herr⟩ hmem
    rcases hmem with h | h | h | h | h | h | h | h
    · have := (parseBool_true_iff s).mpr (Or.inl h); simp_all
    · have := (parseBool_false_iff s).mpr (Or.inl h); simp_all
    · have := (parseBool_true_iff s).mpr (Or.inr (Or.inl h)); simp_all
    · have := (parseBool_false_iff s).mpr (Or.inr (Or.inl h)); simp_all
    · have := (parseBool_true_iff s).mpr (Or.inr (Or.inr (Or.inl h))); simp_all
    · have := (parseBool_false_iff s).mpr (Or.inr (Or.inr (Or.inl h))); simp_all
    · have := (parseBool_true_iff s).mpr (Or.inr (Or.inr (Or.inr h))); simp_all
    · have := (parseBool_false_iff s).mpr (Or.inr (Or.inr (Or.inr h))); simp_all
  · intro hmem
    cases hpb : parseBool s with
    | error err => exact ⟨err, rfl⟩
    | ok b =>
      exfalso
      cases b
      · have := (parseBool_false_iff s).mp hpb
        tauto
      · have := (parseBool_true_iff s).mp hpb
        tauto

theorem check_error_skip (c : KibanaConfig) (hs : c.Skip ≠ "") (err : String)
    (he : parseBool c.Skip = Except.error err) : ∃ e, check c = Except.error e := by
  rw [check_eq]
  by_cases hn : c.Name = ""
  · rw [if_pos hn]
    exact ⟨_, rfl⟩
  rw [if_neg hn, defaulted_Skip, if_neg hs, he]
  exact ⟨err, rfl⟩

theorem check_error_wait (c : KibanaConfig) (hw : c.Wait ≠ "") (err : String)
    (he : parseBool c.Wait = Except.error err) : ∃ e, check c = Except.error e := by
  rw [check_eq]
  by_cases hn : c.Name = ""
  · rw [if_pos hn]
    exact ⟨_, rfl⟩
  rw [if_neg hn]
  cases hsk : (if (defaulted c).Skip = "" then Except.ok false else parseBool (defaulted c).Skip) with
  | error e => exact ⟨e, rfl⟩
  | ok sk =>
    rw [defaulted_Wait, if_neg hw, he]
    exact ⟨err, rfl⟩

theorem scrape_noResponse (t : KibanaCollector) (err : String) :
    scrape t (HttpResult.noResponse err) =
      ({ t with State := false }, Except.error ("error while reading Kibana status: " ++ err)) := rfl

theorem scrape_non200 (t : KibanaCollector) (code : Nat) (status : String)
    (body : Except String KibanaMetrics) (hc : code ≠ 200) :
    scrape t (HttpResult.response code status body) =
      ({ t with State := false },
        Except.error ("invalid response from Kibana status: " ++ status)) := by
  simp [scrape, hc]

theorem Collect_none (e : Exporter) (r : HttpResult) (h : e.target = none) :
    Collect e r = GoResult.ok (e, []) := by
  simp [Collect, h]

theorem Collect_scrape_failed (e : Exporter) (t t' : KibanaCollector) (msg : String)
    (r : HttpResult) (h : e.target = some t) (hs : scrape t r = (t', Except.error msg))
    (hstate : t'.State = false) :
    Collect e r =
      GoResult.ok ({ e with target := some t', gauges := { e.gauges with status := 0 } },
        [Sample.mk "status" [] 0]) := by
  simp only [Collect, h, hs]
  simp [hstate, send]

theorem parseMetrics_not_green (g : GaugeState) (m : KibanaMetrics)
    (hg : goToLower m.state ≠ "green") :
    parseMetrics g (some m) = GoResult.ok { g with status := 0 } := by
  simp [parseMetrics, hg]

theorem parseMetrics_green (g : GaugeState) (m : KibanaMetrics)
    (hg : goToLower m.state = "green") :
    parseMetrics g (some m) =
      GoResult.ok { g with
        status := 1
        info := setLabelValue g.info [m.version, toString m.build] 1
        concurrentConnections := (m.concurrentConnections : Rat)
        uptime := m.uptimeInMillis
        heapTotal := (m.heapTotal : Rat)
        heapUsed := (m.heapUsed : Rat)
        load1m := m.load1m
        load5m := m.load5m
        load15m := m.load15m
        respTimeAvg := m.respTimeAvg
        respTimeMax := m.respTimeMax
        reqDisconnects := (m.reqDisconnects : Rat)
        reqTotal := (m.reqTotal : Rat) } := by
  simp [parseMetrics, hg]

theorem Collect_decoded (e : Exporter) (t : KibanaCollector) (st : String) (m : KibanaMetrics)
    (g' : GaugeState) (h : e.target = some t)
    (hp : parseMetrics e.gauges (some m) = GoResult.ok g') :
    Collect e (HttpResult.response 200 st (Except.ok m)) =
      GoResult.ok ({ e with target := some { t with State := true }, gauges := g' },
        Sample.mk "status" [] g'.status ::
          (g'.info.map (fun p => Sample.mk "info" p.1 p.2) ++
            [Sample.mk "concurrent_connections" [] g'.concurrentConnections,
             Sample.mk "millis_uptime" [] g'.uptime,
             Sample.mk "heap_max_in_bytes" [] g'.heapTotal,
             Sample.mk "heap_used_in_bytes" [] g'.heapUsed,
             Sample.mk "os_load_1m" [] g'.load1m,
             Sample.mk "os_load_5m" [] g'.load5m,
             Sample.mk "os_load_15m" [] g'.load15m,
             Sample.mk "response_average" [] g'.respTimeAvg,
             Sample.mk "response_max" [] g'.respTimeMax,
             Sample.mk "requests_disconnects" [] g'.reqDisconnects,
             Sample.mk "requests_total" [] g'.reqTotal])) := by
  simp only [Collect, h, scrape]
  simp [hp, send]

/-- C1: the claim says a failed scrape (transport OR decode failure)
never propagates an error or panic out of the collection cycle.  The
code violates this for decode failures: a 200 response whose body fails
JSON decoding leaves the collector's `State` flag true, so `Collect`
passes the nil metrics pointer to `parseMetrics`, which dereferences it
and panics.  This theorem evaluates the cycle at such a failing input. -/
theorem C1_decode_failure_panics :
    Collect exDT (HttpResult.response 200 "200 OK" (Except.error "invalid character")) =
      GoResult.panic nilPointerMsg := rfl

/-- C2 counterexample: the claim says (a) any state other than exactly
lowercase ruling, e.g. `Green`, yields status 0.0, and (b) secondary
gauges are emitted iff status is 1.0.  Both are false: `Green`
lowercases to `green` and yields status 1, and a decoded `yellow`
payload yields status 0 while all eleven plain secondary gauges are
still written to the channel that cycle. -/
theorem C2_counterexample :
    statusAfterParse initGauges (some { mBase with state := "Green" }) = some 1 ∧
    cycleSamples exDT (HttpResult.response 200 "200 OK" (Except.ok { mBase with state := "yellow" })) =
      some [Sample.mk "status" [] 0, Sample.mk "concurrent_connections" [] 0,
            Sample.mk "millis_uptime" [] 0, Sample.mk "heap_max_in_bytes" [] 0,
            Sample.mk "heap_used_in_bytes" [] 0, Sample.mk "os_load_1m" [] 0,
            Sample.mk "os_load_5m" [] 0, Sample.mk "os_load_15m" [] 0,
            Sample.mk "response_average" [] 0, Sample.mk "response_max" [] 0,
            Sample.mk "requests_disconnects" [] 0, Sample.mk "requests_total" [] 0] :=
  ⟨rfl, rfl⟩

/-- C2 (amended): for every successfully decoded payload, the status
gauge is set to 1 iff the lowercased state equals `green` (so
mixed-case variants like `Green` also count as healthy); the secondary
gauges are UPDATED iff status is 1 (otherwise they keep their previous
values); but they are EMITTED unconditionally in such a cycle, because
emission is gated on the reachability flag, which a successful scrape
set to true, not on the status value. -/
theorem C2_amended_status_and_emission (e : Exporter) (t : KibanaCollector) (m : KibanaMetrics)
    (st : String) (h : e.target = some t) :
    ∃ g' samples,
      Collect e (HttpResult.response 200 st (Except.ok m)) =
        GoResult.ok ({ e with target := some { t with State := true }, gauges := g' }, samples) ∧
      (g'.status = 1 ↔ goToLower m.state = "green") ∧
      (goToLower m.state ≠ "green" → g' = { e.gauges with status := 0 }) ∧
      samples.map Sample.name =
        "status" :: (g'.info.map (fun _ => "info") ++
          ["concurrent_connections", "millis_uptime", "heap_max_in_bytes", "heap_used_in_bytes",
           "os_load_1m", "os_load_5m", "os_load_15m", "response_average", "response_max",
           "requests_disconnects", "requests_total"]) := by
  by_cases hg : goToLower m.state = "green"
  · refine ⟨_, _, Collect_decoded e t st m _ h (parseMetrics_green e.gauges m hg), ?_, ?_, ?_⟩
    · simp [hg]
    · intro hng
      exact absurd hg hng
    · simp [List.map_append, List.map_map, Function.comp_def, List.map_const']
  · refine ⟨_, _, Collect_decoded e t st m _ h (parseMetrics_not_green e.gauges m hg), ?_, ?_, ?_⟩
    · simp only [hg, iff_false]
      norm_num
    · intro _
      rfl
    · simp [List.map_append, List.map_map, Function.comp_def, List.map_const']

/-- C2 witness: the amended theorem applied to the bound default
collector and the healthy example payload. -/
theorem C2_amended_witness :
    ∃ g' samples,
      Collect exDT (HttpResult.response 200 "200 OK" (Except.ok mBase)) =
        GoResult.ok ({ exDT with target := some { colD with State := true }, gauges := g' },
          samples) ∧
      (g'.status = 1 ↔ goToLower mBase.state = "green") ∧
      (goToLower mBase.state ≠ "green" → g' = { exDT.gauges with status := 0 }) ∧
      samples.map Sample.name =
        "status" :: (g'.info.map (fun _ => "info") ++
          ["concurrent_connections", "millis_uptime", "heap_max_in_bytes", "heap_used_in_bytes",
           "os_load_1m", "os_load_5m", "os_load_15m", "response_average", "response_max",
           "requests_disconnects", "requests_total"]) :=
  C2_amended_status_and_emission exDT colD mBase "200 OK" rfl

/-- C3: when the HTTP request cannot be sent (`client.Do` fails) or the
response code is not 200, the scrape leaves the reachability flag
false and returns an error — carrying the status line for non-200
responses — and the collection cycle terminates normally emitting
exactly one gauge, status = 0. -/
theorem C3_transport_failure_cycle (e : Exporter) (t : KibanaCollector) (r : HttpResult)
    (h : e.target = some t)
    (hr : (∃ err, r = HttpResult.noResponse err) ∨
          (∃ code status body, r = HttpResult.response code status body ∧ code ≠ 200)) :
    ∃ t' msg,
      scrape t r = (t', Except.error msg) ∧
      t'.State = false ∧
      (∀ code status body, r = HttpResult.response code status body →
        msg = "invalid response from Kibana status: " ++ status) ∧
      Collect e r =
        GoResult.ok ({ e with target := some t', gauges := { e.gauges with status := 0 } },
          [Sample.mk "status" [] 0]) := by
  rcases hr with ⟨err, rfl⟩ | ⟨code, status, body, rfl, hc⟩
  · refine ⟨{ t with State := false }, _, scrape_noResponse t err, rfl, ?_, ?_⟩
    · intro code2 status2 body2 hcontra
      cases hcontra
    · exact Collect_scrape_failed e t _ _ _ h (scrape_noResponse t err) rfl
  · refine ⟨{ t with State := false }, _, scrape_non200 t code status body hc, rfl, ?_, ?_⟩
    · intro code2 status2 body2 heq
      cases heq
      rfl
    · exact Collect_scrape_failed e t _ _ _ h (scrape_non200 t code status body hc) rfl

/-- C3 witness: a 404 response against the bound default collector. -/
theorem C3_transport_failure_witness :
    ∃ t' msg,
      scrape colD (HttpResult.response 404 "404 Not Found" (Except.error "nope")) =
        (t', Except.error msg) ∧
      t'.State = false ∧
      (∀ code status body,
        HttpResult.response 404 "404 Not Found" (Except.error "nope") =
          HttpResult.response code status body →
        msg = "invalid response from Kibana status: " ++ status) ∧
      Collect exDT (HttpResult.response 404 "404 Not Found" (Except.error "nope")) =
        GoResult.ok ({ exDT with target := some t', gauges := { exDT.gauges with status := 0 } },
          [Sample.mk "status" [] 0]) :=
  C3_transport_failure_cycle exDT colD _ rfl
    (Or.inr ⟨404, "404 Not Found", Except.error "nope", rfl, by decide⟩)

/-- C4 counterexample: the claim says a cycle with no bound target
still emits the zero-value overall-status gauge.  The code returns
before writing anything to the channel: the cycle emits no sample at
all. -/
theorem C4_counterexample :
    Collect exD (HttpResult.noResponse "connection refused") = GoResult.ok (exD, []) := rfl

/-- C4 (amended): a collection cycle invoked while no target has ever
been bound logs an error and emits no metrics at all — not even the
overall-status gauge. -/
theorem C4_amended_no_emission (e : Exporter) (r : HttpResult) (h : e.target = none) :
    Collect e r = GoResult.ok (e, []) :=
  Collect_none e r h

/-- C4 witness: the amended theorem at the unbound fixture exporter. -/
theorem C4_amended_witness :
    Collect exD (HttpResult.noRequest "x") = GoResult.ok (exD, []) :=
  C4_amended_no_emission exD (HttpResult.noRequest "x") rfl

/-- C5: the claim (and the repository's own test
`TestNewExporterWithoutNamespace`) requires `NewExporter` to fail on an
empty registry namespace.  The code ends with `return exporter, nil`
unconditionally and never validates the namespace: construction with
the empty namespace succeeds. -/
theorem C5_empty_namespace_accepted :
    ∃ e, NewExporter "" [NewCollector cfgD] false = Except.ok e :=
  ⟨_, rfl⟩

/-- C6: the stored auth header is empty when username or password is
empty, equals `Basic` + base64 of `username:password` when both are
non-empty, and is independent of the profile's scheme. -/
theorem C6_auth_header (k : KibanaConfig) :
    ((k.Username = "" ∨ k.Password = "") → (NewCollector k).authHeader = "") ∧
    (k.Username ≠ "" → k.Password ≠ "" →
      (NewCollector k).authHeader =
        "Basic " ++ base64Encode (strBytes (k.Username ++ ":" ++ k.Password))) ∧
    (∀ proto, (NewCollector { k with Protocol := proto }).authHeader =
      (NewCollector k).authHeader) := by
  refine ⟨?_, ?_, fun proto => rfl⟩
  · intro h
    have hne : ¬(k.Username ≠ "" ∧ k.Password ≠ "") := by tauto
    simp [NewCollector, hne]
  · intro h1 h2
    simp [NewCollector, h1, h2]

/-- C6 witness: the test credentials `kibanau`/`kibanap` produce the
concrete standard-base64 header. -/
theorem C6_auth_header_witness :
    (NewCollector { cfgD with Username := "kibanau", Password := "kibanap" }).authHeader =
      "Basic a2liYW5hdTpraWJhbmFw" := by
  have h := (C6_auth_header { cfgD with Username := "kibanau", Password := "kibanap" }).2.1
    (by decide) (by decide)
  rw [h]
  rfl

/-- C7: the default-filling validation step is idempotent — `check` on
an already-validated profile returns that profile unchanged, derived
base URL included. -/
theorem C7_check_idempotent (c c' : KibanaConfig) (h : check c = Except.ok c') :
    check c' = Except.ok c' := by
  obtain ⟨hn, hp, hh, hpt, hsk, hw, hu⟩ := check_ok_shape c c' h
  rw [check_eq, if_neg hn, defaulted_of_filled c' hp hh hpt, hsk, hw]
  show Except.ok { c' with uri := url c' } = Except.ok c'
  rw [← hu]

/-- C7 witness: validating the raw profile `cfgRaw` yields
`cfgRawChecked`, and a second `check` leaves it fixed. -/
theorem C7_check_idempotent_witness :
    check cfgRawChecked = Except.ok cfgRawChecked :=
  C7_check_idempotent cfgRaw cfgRawChecked rfl

/-- C8 counterexample: the claim says the `SetDefault` pattern makes
the port optional.  The compiled pattern `^(https?)://([^:]+)(?::(\d+))`
requires the `:port` part: on a port-less URL nothing matches, so
scheme/host/port keep their previous values instead of being
overridden from the URL. -/
theorem C8_counterexample :
    (SetDefault cfgFtp "https://example.org" false false).Protocol = "ftp" ∧
    (SetDefault cfgFtp "https://example.org" false false).Host = "h" ∧
    (SetDefault cfgFtp "https://example.org" false false).Port = "1" ∧
    (SetDefault cfgFtp "https://example.org" false false).uri = "https://example.org" :=
  ⟨rfl, rfl, rfl, rfl⟩

/-- C8 (amended): `SetDefault` parses its argument with the fixed
pattern `scheme://host:port` in which the port is REQUIRED; when the
pattern matches, scheme/host/port are overridden from the URL — in
particular `https://example.org:9201` reads back as exactly
`https`/`example.org`/`9201` — and when it does not match (e.g. no
port), scheme/host/port are left unchanged while the raw uri and the
two flags are still stored. -/
theorem C8_amended_setdefault (c : KibanaConfig) (sk w : Bool) :
    ((SetDefault c "https://example.org:9201" sk w).Protocol = "https" ∧
     (SetDefault c "https://example.org:9201" sk w).Host = "example.org" ∧
     (SetDefault c "https://example.org:9201" sk w).Port = "9201") ∧
    (∀ u, matchUrlLine u = none →
      (SetDefault c u sk w).Protocol = c.Protocol ∧
      (SetDefault c u sk w).Host = c.Host ∧
      (SetDefault c u sk w).Port = c.Port ∧
      (SetDefault c u sk w).uri = u ∧
      (SetDefault c u sk w).skip = sk ∧
      (SetDefault c u sk w).wait = w) := by
  constructor
  · exact ⟨rfl, rfl, rfl⟩
  · intro u hu
    simp [SetDefault, hu]

/-- C8 witness: the amended theorem at the default profile, with the
port-less URL `https://example.org` as the non-matching input. -/
theorem C8_amended_witness :
    ((SetDefault cfgD "https://example.org:9201" false true).Protocol = "https" ∧
     (SetDefault cfgD "https://example.org:9201" false true).Host = "example.org" ∧
     (SetDefault cfgD "https://example.org:9201" false true).Port = "9201") ∧
    ((SetDefault cfgD "https://example.org" false true).Protocol = cfgD.Protocol ∧
     (SetDefault cfgD "https://example.org" false true).Host = cfgD.Host ∧
     (SetDefault cfgD "https://example.org" false true).Port = cfgD.Port ∧
     (SetDefault cfgD "https://example.org" false true).uri = "https://example.org" ∧
     (SetDefault cfgD "https://example.org" false true).skip = false ∧
     (SetDefault cfgD "https://example.org" false true).wait = true) :=
  ⟨(C8_amended_setdefault cfgD false true).1,
   (C8_amended_setdefault cfgD false true).2 "https://example.org" rfl⟩

/-- C9 counterexample: the claim says boolean parsing succeeds ONLY for
case-insensitive yes/no/true/false/1/0.  `strconv.ParseBool` also
accepts `t` and `f`: `parseBool "t"` succeeds with `true`, `parseBool
"F"` succeeds with `false`, and a profile whose `skip-tls` is `t`
passes validation with the flag set. -/
theorem C9_counterexample :
    parseBool "t" = Except.ok true ∧
    parseBool "F" = Except.ok false ∧
    check cfgSkipT =
      Except.ok
        { cfgSkipT with
          Protocol := "http"
          Host := "localhost"
          Port := "5601"
          uri := "http://localhost:5601"
          skip := true } :=
  ⟨rfl, rfl, rfl⟩

/-- C9 (amended): parsing a boolean-like field succeeds exactly when
the value is a case-insensitive match of yes/no/true/false/t/f/1/0
(yielding the corresponding boolean), and `check` fails with an error
whenever a non-empty `skip-tls` or `wait` value is outside that set. -/
theorem C9_amended_parse_bool (s : String) :
    (parseBool s = Except.ok true ↔
      (goToLower s = "yes" ∨ goToLower s = "true" ∨ goToLower s = "t" ∨ goToLower s = "1")) ∧
    (parseBool s = Except.ok false ↔
      (goToLower s = "no" ∨ goToLower s = "false" ∨ goToLower s = "f" ∨ goToLower s = "0")) ∧
    ((∃ err, parseBool s = Except.error err) ↔
      ¬(goToLower s = "yes" ∨ goToLower s = "no" ∨ goToLower s = "true" ∨
        goToLower s = "false" ∨ goToLower s = "t" ∨ goToLower s = "f" ∨
        goToLower s = "1" ∨ goToLower s = "0")) ∧
    (∀ c : KibanaConfig, c.Skip = s → s ≠ "" →
      ¬(goToLower s = "yes" ∨ goToLower s = "no" ∨ goToLower s = "true" ∨
        goToLower s = "false" ∨ goToLower s = "t" ∨ goToLower s = "f" ∨
        goToLower s = "1" ∨ goToLower s = "0") →
      ∃ e, check c = Except.error e) ∧
    (∀ c : KibanaConfig, c.Wait = s → s ≠ "" →
      ¬(goToLower s = "yes" ∨ goToLower s = "no" ∨ goToLower s = "true" ∨
        goToLower s = "false" ∨ goToLower s = "t" ∨ goToLower s = "f" ∨
        goToLower s = "1" ∨ goToLower s = "0") →
      ∃ e, check c = Except.error e) := by
  refine ⟨parseBool_true_iff s, parseBool_false_iff s, parseBool_error_iff s, ?_, ?_⟩
  · intro c hcs hne hbad
    obtain ⟨err, herr⟩ := (parseBool_error_iff s).mpr hbad
    refine check_error_skip c ?_ err ?_
    · rw [hcs]; exact hne
    · rw [hcs]; exact herr
  · intro c hcw hne hbad
    obtain ⟨err, herr⟩ := (parseBool_error_iff s).mpr hbad
    refine check_error_wait c ?_ err ?_
    · rw [hcw]; exact hne
    · rw [hcw]; exact herr

/-- C9 witness: `maybe` is rejected by `parseBool`, and a profile whose
`skip-tls` value is `maybe` fails validation. -/
theorem C9_amended_witness :
    ∃ e, check { cfgSkipT with Skip := "maybe" } = Except.error e :=
  (C9_amended_parse_bool "maybe").2.2.2.1 { cfgSkipT with Skip := "maybe" } rfl
    (by decide) (by decide)

/-- C10: for every incoming metrics request, both branches of the
handler bind `Collectors[0]` as the scrape target, whatever the
`target` query parameter holds — the result never depends on the
parameter, and even when the parameter names a different configured
collector (one `FindTarget` would resolve), that collector is not the
one bound. -/
theorem C10_handler_ignores_target (e : Exporter) (t : String) (c : KibanaCollector)
    (rest : List KibanaCollector) (h : e.Collectors = c :: rest) :
    handler e t = GoResult.ok (SetTarget e c) ∧
    (∀ t2, handler e t = handler e t2) ∧
    (∀ c', FindTarget e t = some c' → c' ≠ c →
      handler e t ≠ GoResult.ok (SetTarget e c')) := by
  have h1 : handler e t = GoResult.ok (SetTarget e c) := by
    by_cases ht : t = "" <;> simp [handler, ht, h]
  refine ⟨h1, ?_, ?_⟩
  · intro t2
    rw [h1]
    by_cases ht2 : t2 = "" <;> simp [handler, ht2, h]
  · intro c' _ hne heq
    rw [h1] at heq
    have hset : SetTarget e c = SetTarget e c' := by
      injection heq
    have : some c = some c' := congrArg Exporter.target hset
    exact hne (Option.some.inj this).symm

/-- C10 witness: on the two-collector fixture, a request naming the
second configured target `other` (which `FindTarget` resolves to
`colB`) still binds the first collector `colD`, not `colB`. -/
theorem C10_handler_witness :
    handler exD "other" = GoResult.ok (SetTarget exD colD) ∧
    handler exD "other" ≠ GoResult.ok (SetTarget exD colB) :=
  ⟨(C10_handler_ignores_target exD "other" colD [colB] rfl).1,
   (C10_handler_ignores_target exD "other" colD [colB] rfl).2.2 colB rfl (by decide)⟩
